import Mathlib

/-!
Verification of the resume-interpreter / ATS match-scorer core of the
aijobportal repository (file `geminiService`: `parseResumeWithGemini`,
`fallbackResumeParser`, `calculateATSScore`, `fallbackATSScoring`).

The JavaScript source is shallowly embedded:
* strings are `List Char` at the scanning level, `String` at the record level;
* JavaScript numbers are exact (`Nat` / `Int` / `Rat`), `Math.round x` is
  `⌊x + 1/2⌋` (round half toward positive infinity);
* fallible code (the `s.name?.toLowerCase() || s.toLowerCase()` skill-name
  coercion, which throws a TypeError when the left operand is falsy and the
  skill is a plain object) is embedded in `Except Unit`;
* the single outbound generative-service call of each operation is an oracle
  parameter (`ServiceOutcome`, plus a deserialization oracle standing for the
  JavaScript built-in `JSON.parse`, which is not code of this repository).
* case mapping (`toLowerCase`) is embedded as ASCII `Char.toLower`.
-/

set_option autoImplicit false

/-! ### JavaScript character classes and string primitives -/

/-- The JavaScript whitespace set: the characters matched by `\s` and removed
by `String.prototype.trim` (WhiteSpace plus LineTerminator). -/
def isJsWs (c : Char) : Bool :=
  c = ' ' || c = '\t' || c = '\n' || c = '\r' ||
  c = Char.ofNat 0x0b || c = Char.ofNat 0x0c ||
  c = Char.ofNat 0xa0 || c = Char.ofNat 0x1680 ||
  (Char.ofNat 0x2000 ≤ c && c ≤ Char.ofNat 0x200a) ||
  c = Char.ofNat 0x2028 || c = Char.ofNat 0x2029 ||
  c = Char.ofNat 0x202f || c = Char.ofNat 0x205f ||
  c = Char.ofNat 0x3000 || c = Char.ofNat 0xfeff

/-- `String.prototype.trim`: drop JavaScript whitespace from both ends. -/
def jsTrim (l : List Char) : List Char :=
  ((l.dropWhile isJsWs).reverse.dropWhile isJsWs).reverse

/-- `needle` is a prefix of `hay` (executable, structural). -/
def leadsL : List Char → List Char → Bool
  | [], _ => true
  | _ :: _, [] => false
  | a :: as, b :: bs => a = b && leadsL as bs

/-- `hay.includes(needle)` of JavaScript: `needle` occurs as a contiguous
substring of `hay`.  First argument is the needle. -/
def jsIncludes (needle : List Char) : List Char → Bool
  | [] => leadsL needle []
  | c :: t => leadsL needle (c :: t) || jsIncludes needle t

/-- String-level `hay.includes(needle)`. -/
def strIncludes (hay needle : String) : Bool :=
  jsIncludes needle.data hay.data

/-- ASCII `toLowerCase` on a character list. -/
def lowerL (l : List Char) : List Char := l.map Char.toLower

/-- ASCII `toLowerCase` on a string. -/
def lowerStr (s : String) : String := String.mk (lowerL s.data)

/-- `String.prototype.split('\n')`. -/
def splitNL : List Char → List (List Char)
  | [] => [[]]
  | c :: t =>
    if c = '\n' then [] :: splitNL t
    else
      match splitNL t with
      | [] => [[c]]
      | h :: r => (c :: h) :: r

/-- The decimal digits of a character list, in order. -/
def digitsOf (l : List Char) : List Char := l.filter Char.isDigit

/-- JavaScript `Math.round`: round half toward positive infinity.  Used in
theorem statements; the executable definitions below use the equivalent
integer-division forms `pctRound` and `overallRound`, proved equal to
`jsRound` of the corresponding rational expressions. -/
def jsRound (q : ℚ) : ℤ := ⌊q + 1/2⌋

/-- The exact value of `Math.round((m / n) * 100)` for naturals `m`, `n`
with `0 < n`, as a single natural division:
`round(100*m/n) = floor((200*m + n) / (2*n))`. -/
def pctRound (m n : Nat) : ℤ := ((200 * m + n) / (2 * n) : ℕ)

/-- The exact value of `Math.round(s*0.5 + e*0.3 + d*0.2)` for integers,
as a single integer division: `floor((5*s + 3*e + 2*d + 5) / 10)`. -/
def overallRound (s e d : ℤ) : ℤ := (5 * s + 3 * e + 2 * d + 5) / 10

/-! ### Regex matchers of the fallback resume parser

Each of the three regexes of `fallbackResumeParser` is embedded as an
executable leftmost-match scanner equivalent to the JavaScript backtracking
engine on that particular pattern. -/

/-- Character class `[a-zA-Z0-9._%+-]` (email local part). -/
def isLocalChar (c : Char) : Bool :=
  c.isAlpha || c.isDigit || c = '.' || c = '_' || c = '%' || c = '+' || c = '-'

/-- Character class `[a-zA-Z0-9.-]` (email domain part). -/
def isDomChar (c : Char) : Bool :=
  c.isAlpha || c.isDigit || c = '.' || c = '-'

/-- ASCII letter, class `[a-zA-Z]`. -/
def isAsciiAlpha (c : Char) : Bool := c.isAlpha

/-- Domain search for `[a-zA-Z0-9.-]+\.[a-zA-Z]{2,}` after the `@`:
`B` is the maximal run of domain characters; try the dot at index `k`,
`k-1`, ..., `1` (the greedy-first backtracking order of `B+`), requiring at
least two letters after the dot. -/
def domSearch (rest B : List Char) : Nat → Option (List Char)
  | 0 => none
  | k + 1 =>
    if B.getD (k + 1) ' ' = '.' then
      let tld := (rest.drop (k + 2)).takeWhile isAsciiAlpha
      if 2 ≤ tld.length then some (B.take (k + 1) ++ '.' :: tld)
      else domSearch rest B k
    else domSearch rest B k

/-- Attempt of `/[a-zA-Z0-9._%+-]+@[a-zA-Z0-9.-]+\.[a-zA-Z]{2,}/` at one
position. -/
def emailAt (s : List Char) : Option (List Char) :=
  let loc := s.takeWhile isLocalChar
  if loc.isEmpty then none
  else
    match s.drop loc.length with
    | '@' :: rest =>
      let B := rest.takeWhile isDomChar
      (domSearch rest B (B.length - 1)).map (fun d => loc ++ '@' :: d)
    | _ => none

/-- Leftmost match of the email regex (`resumeText.match(...)` first match). -/
def firstEmail : List Char → Option (List Char)
  | [] => none
  | c :: t =>
    match emailAt (c :: t) with
    | some m => some m
    | none => firstEmail t

/-- Character class `[\d\s\-\(\)]` of the phone regex. -/
def isPhoneChar (c : Char) : Bool :=
  c.isDigit || isJsWs c || c = '-' || c = '(' || c = ')'

/-- Character class `[1-9]`. -/
def isOneNine (c : Char) : Bool := '1' ≤ c && c ≤ '9'

/-- `[1-9]?[\d\s\-\(\)]{10,}` at one position, with the greedy-first
backtracking order of the optional `[1-9]`. -/
def phoneCore : List Char → Option (List Char)
  | [] => none
  | c :: t =>
    if isOneNine c then
      let r := t.takeWhile isPhoneChar
      if 10 ≤ r.length then some (c :: r)
      else
        let r0 := (c :: t).takeWhile isPhoneChar
        if 10 ≤ r0.length then some r0 else none
    else
      let r0 := (c :: t).takeWhile isPhoneChar
      if 10 ≤ r0.length then some r0 else none

/-- Attempt of `/[\+]?[1-9]?[\d\s\-\(\)]{10,}/` at one position.  When the
leading `+` is present but the remainder fails, the backtracked empty-`+`
alternative also fails because `+` is not in the repeated class. -/
def phoneAt : List Char → Option (List Char)
  | [] => none
  | c :: t =>
    if c = '+' then (phoneCore t).map (fun m => c :: m)
    else phoneCore (c :: t)

/-- Leftmost match of the phone regex. -/
def firstPhone : List Char → Option (List Char)
  | [] => none
  | c :: t =>
    match phoneAt (c :: t) with
    | some m => some m
    | none => firstPhone t

/-- Uppercase ASCII letter, class `[A-Z]`. -/
def isUpperAZ (c : Char) : Bool := 'A' ≤ c && c ≤ 'Z'

/-- Lowercase ASCII letter, class `[a-z]`. -/
def isLowerAZ (c : Char) : Bool := 'a' ≤ c && c ≤ 'z'

/-- A JavaScript LineTerminator (what `^` with flag `m` matches after). -/
def isLineTerm (c : Char) : Bool :=
  c = '\n' || c = '\r' || c = Char.ofNat 0x2028 || c = Char.ofNat 0x2029

/-- Attempt of `[A-Z][a-z]+ [A-Z][a-z]+` at one position. -/
def nameAt : List Char → Option (List Char)
  | [] => none
  | c :: t =>
    if isUpperAZ c then
      let r1 := t.takeWhile isLowerAZ
      if r1.isEmpty then none
      else
        match t.drop r1.length with
        | ' ' :: u =>
          match u with
          | d :: u2 =>
            if isUpperAZ d then
              let r2 := u2.takeWhile isLowerAZ
              if r2.isEmpty then none
              else some (c :: r1 ++ ' ' :: d :: r2)
            else none
          | [] => none
        | _ => none
    else none

/-- Scan of `/^([A-Z][a-z]+ [A-Z][a-z]+)/m`: attempt only at line starts
(position 0 and every position following a LineTerminator), leftmost first. -/
def nameScan : Bool → List Char → Option (List Char)
  | _, [] => none
  | atStart, c :: t =>
    match (if atStart then nameAt (c :: t) else none) with
    | some m => some m
    | none => nameScan (isLineTerm c) t

/-- Leftmost multi-line match of the name regex. -/
def firstName (s : List Char) : Option (List Char) := nameScan true s

/-! ### Candidate Profile records (shape of the prompt's JSON schema) -/

structure PersonalInfo where
  name : Option String
  email : Option String
  phone : Option String
  location : Option String
  linkedin : Option String
  github : Option String
  website : Option String
deriving DecidableEq, Repr

structure ExperienceEntry where
  title : String
  company : String
  location : String
  startDate : String
  endDate : Option String
  current : Bool
  description : String
deriving DecidableEq, Repr

structure EducationEntry where
  degree : String
  school : String
  location : String
  startDate : String
  endDate : String
  gpa : String
  description : String
deriving DecidableEq, Repr

structure SkillEntry where
  name : String
  category : String
  level : String
deriving DecidableEq, Repr

structure ProjectEntry where
  name : String
  description : String
  technologies : List String
  url : Option String
  github : Option String
deriving DecidableEq, Repr

structure CertificationEntry where
  name : String
  issuer : String
  issueDate : String
  credentialId : String
deriving DecidableEq, Repr

structure LanguageEntry where
  name : String
  proficiency : String
deriving DecidableEq, Repr

structure CandidateProfile where
  personalInfo : PersonalInfo
  summary : String
  experience : List ExperienceEntry
  education : List EducationEntry
  skills : List SkillEntry
  projects : List ProjectEntry
  certifications : List CertificationEntry
  languages : List LanguageEntry
deriving DecidableEq, Repr

/-- The fixed skill keyword list of `fallbackResumeParser`. -/
def skillKeywords : List String :=
  ["Python", "JavaScript", "Java", "C++", "C#", "HTML", "CSS", "PHP",
   "MySQL", "React", "Node.js", "Angular", "Vue.js", "AWS", "Docker", "Git"]

/-- The fixed degree keyword list of `fallbackResumeParser`. -/
def educationKeywords : List String :=
  ["Bachelor", "Master", "PhD", "Diploma", "Certificate"]

/-- An education entry as pushed by the fallback parser: the whole trimmed
line as `degree`, every other field the empty string. -/
def mkEduEntry (line : String) : EducationEntry :=
  { degree := line, school := "", location := "", startDate := "",
    endDate := "", gpa := "", description := "" }

/-- `fallbackResumeParser` of the source, line by line:
lines are split on `'\n'`, trimmed, blank lines removed; email, phone and
name come from the leftmost regex matches over the whole text; skills are the
fixed keywords whose lowercase form occurs in the lowercased text; education
is one entry per (line, contained degree keyword) pair, pushed in the
two-level `forEach` order of the source. -/
def fallbackResumeParser (resumeText : String) : CandidateProfile :=
  let cs := resumeText.data
  let lines := ((splitNL cs).map jsTrim).filter (fun l => decide (0 < l.length))
  { personalInfo :=
      { email := (firstEmail cs).map String.mk
        phone := (firstPhone cs).map (fun m => String.mk (jsTrim m))
        name := (firstName cs).map String.mk
        location := none, linkedin := none, github := none, website := none }
    summary := ""
    experience := []
    education :=
      lines.foldl
        (fun acc line =>
          educationKeywords.foldl
            (fun acc2 k =>
              if jsIncludes k.data line then acc2 ++ [mkEduEntry (String.mk line)]
              else acc2)
            acc)
        []
    skills :=
      skillKeywords.foldl
        (fun acc k =>
          if jsIncludes (lowerL k.data) (lowerL cs) then
            acc ++ [{ name := k, category := "Technical", level := "Intermediate" }]
          else acc)
        []
    projects := []
    certifications := []
    languages := [] }

/-! ### Match Scorer data model -/

/-- A skill entry as seen by `fallbackATSScoring`: either a record with a
`name` field (the repository's schema) or a plain string (the second branch
of `s.name?.toLowerCase() || s.toLowerCase()`). -/
inductive SkillVal where
  | obj (name : Option String)
  | str (s : String)
deriving DecidableEq, Repr

/-- The JavaScript expression `s.name?.toLowerCase() || s.toLowerCase()`.
For a record it yields the lowercased name when that is truthy (non-empty);
when the name is absent or lowercases to the empty string (falsy), the right
operand calls `toLowerCase` on the record itself, a TypeError.  For a plain
string `s.name` is `undefined`, so `s.toLowerCase()` is evaluated, which
succeeds. -/
def skillLowerE : SkillVal → Except Unit String
  | .obj (some n) => if n = "" then .error () else .ok (lowerStr n)
  | .obj none => .error ()
  | .str s => .ok (lowerStr s)

structure JobExperience where
  min : Option Nat
  max : Option Nat
deriving DecidableEq, Repr

/-- The fields of a job posting read by `fallbackATSScoring`. -/
structure JobPosting where
  skills : Option (List SkillVal)
  experience : Option JobExperience
deriving DecidableEq, Repr

/-- The fields of a candidate profile read by `fallbackATSScoring`; every
top-level field is optional. -/
structure ScoreProfile where
  skills : Option (List SkillVal)
  experience : Option (List ExperienceEntry)
  education : Option (List EducationEntry)
deriving DecidableEq, Repr

structure SkillsMatch where
  score : ℤ
  matchedSkills : List String
  missingSkills : List String
  details : String
deriving DecidableEq, Repr

structure ExperienceMatch where
  score : ℤ
  requiredYears : Nat
  candidateYears : Nat
  details : String
deriving DecidableEq, Repr

structure EducationMatch where
  score : ℤ
  details : String
deriving DecidableEq, Repr

structure MatchResult where
  overallScore : ℤ
  skillsMatch : SkillsMatch
  experienceMatch : ExperienceMatch
  educationMatch : EducationMatch
  recommendedActions : List String
  matchSummary : String
deriving DecidableEq, Repr

/-! ### The fallback ATS scorer -/

/-- The skills block of `fallbackATSScoring` (lines guarded by
`jobDescription.skills && candidateProfile.skills`): lowercase both sides,
count a job skill as matched when some candidate skill name contains it or is
contained in it, then `jobSkills.length > 0 ?
Math.round((matched/total)*100) : 0`.  When either list is absent the block
is skipped and the score stays `0`. -/
def skillsScoreE (job : JobPosting) (profile : ScoreProfile) : Except Unit ℤ :=
  match job.skills, profile.skills with
  | some jskills, some pskills =>
    match jskills.mapM skillLowerE with
    | .error e => .error e
    | .ok js =>
      match pskills.mapM skillLowerE with
      | .error e => .error e
      | .ok cs =>
        let matched := js.filter
          (fun skill => cs.any (fun cSkill =>
            strIncludes cSkill skill || strIncludes skill cSkill))
        .ok (if 0 < js.length then pctRound matched.length js.length else 0)
  | _, _ => .ok 0

/-- The experience block of `fallbackATSScoring` (guarded by
`jobDescription.experience && candidateProfile.experience`):
`requiredYears = min || 0`, `candidateYears = experience.length || 0`;
`100` when `candidateYears >= requiredYears`, else
`Math.round((candidateYears/requiredYears)*100)` when `candidateYears > 0`,
else `0`; `0` when either guard fails. -/
def experienceScoreOf (job : JobPosting) (profile : ScoreProfile) : ℤ :=
  match job.experience, profile.experience with
  | some jx, some el =>
    let requiredYears := jx.min.getD 0
    let candidateYears := el.length
    if requiredYears ≤ candidateYears then 100
    else if 0 < candidateYears then pctRound candidateYears requiredYears
    else 0
  | _, _ => 0

/-- The condition under which the partial-credit (division) branch of the
experience block executes: the first condition fails and
`candidateYears > 0`. -/
def expPartialBranch (requiredYears candidateYears : Nat) : Bool :=
  !(decide (requiredYears ≤ candidateYears)) && decide (0 < candidateYears)

/-- The education block of `fallbackATSScoring`: a flat `80` when
`candidateProfile.education` is present and non-empty, else `0`. -/
def educationScoreOf (profile : ScoreProfile) : ℤ :=
  match profile.education with
  | some el => if 0 < el.length then 80 else 0
  | none => 0

/-- `fallbackATSScoring` of the source.  The only failure source is the
skill-name coercion inside the skills block; `.error ()` stands for the
TypeError it can throw. -/
def fallbackATSScoring (job : JobPosting) (profile : ScoreProfile) :
    Except Unit MatchResult :=
  match skillsScoreE job profile with
  | .error e => .error e
  | .ok sk =>
    let ex := experienceScoreOf job profile
    let ed := educationScoreOf profile
    let overall := overallRound sk ex ed
    .ok
      { overallScore := overall
        skillsMatch :=
          { score := sk, matchedSkills := [], missingSkills := [],
            details := "Basic skills matching performed" }
        experienceMatch :=
          { score := ex
            requiredYears := (job.experience.bind JobExperience.min).getD 0
            candidateYears := (profile.experience.map List.length).getD 0
            details := "Basic experience matching performed" }
        educationMatch :=
          { score := ed, details := "Basic education matching performed" }
        recommendedActions := ["Complete your profile", "Add more relevant skills"]
        matchSummary := "Overall match score: " ++ toString overall ++
          "%. This is a basic calculation." }

/-! ### The two operations and their service boundary -/

/-- Outcome of the single outbound call to the generative service:
not configured (`genAI` is null), a thrown service error, or a textual
response. -/
inductive ServiceOutcome where
  | unavailable
  | failure
  | success (text : String)
deriving DecidableEq, Repr

/-- Strip a trailing ` ``` ` fence and the whitespace before it
(`replace(/\s*```$/, '')`). -/
def stripTrailingFence (l : List Char) : List Char :=
  let r := l.reverse
  if leadsL ("```".data.reverse) r then
    ((r.drop 3).dropWhile isJsWs).reverse
  else l

/-- The response cleanup of both operations: trim, then strip a leading
` ```json ` or bare ` ``` ` fence (and following whitespace) and the trailing
fence. -/
def cleanResponse (s : String) : List Char :=
  let t := jsTrim s.data
  if leadsL ("```json".data) t then
    stripTrailingFence ((t.drop 7).dropWhile isJsWs)
  else if leadsL ("```".data) t then
    stripTrailingFence ((t.drop 3).dropWhile isJsWs)
  else t

/-- `cleanedText.match(/\{[\s\S]*\}/)`: the span from the first `{` to the
last `}`, when the first `{` precedes the last `}`. -/
def extractBraceSpan (l : List Char) : Option (List Char) :=
  match l.findIdx? (fun c => c = Char.ofNat 0x7b),
        l.reverse.findIdx? (fun c => c = Char.ofNat 0x7d) with
  | some i, some jr =>
    let j := l.length - 1 - jr
    if i < j then some ((l.take (j + 1)).drop i) else none
  | _, _ => none

/-- `parseResumeWithGemini`: on a missing service, a thrown service call, a
response without a brace span, or a deserialization failure (the `parse`
oracle, standing for `JSON.parse` plus the pass-through of the parsed data),
return the fallback parser's result; otherwise return the parsed data. -/
def parseResumeWithGemini (svc : ServiceOutcome)
    (parse : String → Option CandidateProfile) (resumeText : String) :
    CandidateProfile :=
  match svc with
  | .unavailable => fallbackResumeParser resumeText
  | .failure => fallbackResumeParser resumeText
  | .success t =>
    match extractBraceSpan (cleanResponse t) with
    | none => fallbackResumeParser resumeText
    | some payload =>
      match parse (String.mk payload) with
      | some p => p
      | none => fallbackResumeParser resumeText

/-- `calculateATSScore`: the try block either returns a value or raises; any
raise (a thrown service call, or a TypeError out of a fallback call made
inside the try block) reaches the catch block, whose own
`fallbackATSScoring` call is outside any handler, so its TypeError
propagates to the caller. -/
def calculateATSScore (svc : ServiceOutcome)
    (parse : String → Option MatchResult) (job : JobPosting)
    (profile : ScoreProfile) : Except Unit MatchResult :=
  let tryBody : Except Unit MatchResult :=
    match svc with
    | .unavailable => fallbackATSScoring job profile
    | .failure => .error ()
    | .success t =>
      match extractBraceSpan (cleanResponse t) with
      | none => fallbackATSScoring job profile
      | some payload =>
        match parse (String.mk payload) with
        | some r => .ok r
        | none => fallbackATSScoring job profile
  match tryBody with
  | .ok r => .ok r
  | .error _ => fallbackATSScoring job profile

deriving instance DecidableEq for Except

/-! ### Concrete fixtures used by closed theorems and witnesses -/

/-- The canonical Jane Doe resume text of the spec's test property. -/
def janeText : String := "Jane Doe\njane.doe@example.com\n(555) 123-4567"

/-- The Jane Doe text preceded by an unrelated earlier email-shaped
substring. -/
def janeTextPoisoned : String :=
  "a@b.co\nJane Doe\njane.doe@example.com\n(555) 123-4567"

def jobJava : JobPosting :=
  { skills := some [.obj (some "Java")], experience := none }

def profJava : ScoreProfile :=
  { skills := some [.obj (some "java"), .obj (some "SQL")],
    experience := none, education := none }

/-- A job posting whose single skill entry has the empty string as name. -/
def jobEmptyName : JobPosting :=
  { skills := some [.obj (some "")], experience := none }

def profPlain : ScoreProfile :=
  { skills := some [.obj (some "java")], experience := none, education := none }

/-- A job requiring zero years (`experience.min = 0`). -/
def jobZeroReq : JobPosting :=
  { skills := none, experience := some { min := some 0, max := none } }

/-- A candidate profile whose `experience` field is absent. -/
def profNoExp : ScoreProfile :=
  { skills := none, experience := none, education := none }

/-- A candidate profile whose `experience` field is present and empty. -/
def profExpNil : ScoreProfile :=
  { skills := none, experience := some [], education := none }

/-- A job requiring five years (`experience.min = 5`). -/
def jobFiveReq : JobPosting :=
  { skills := none, experience := some { min := some 5, max := none } }

def expEntry1 : ExperienceEntry :=
  { title := "Engineer", company := "Acme", location := "", startDate := "",
    endDate := none, current := false, description := "" }

def profExpOne : ScoreProfile :=
  { skills := none, experience := some [expEntry1], education := none }

def profExpFive : ScoreProfile :=
  { skills := none, experience := some (List.replicate 5 expEntry1),
    education := none }

def jobNone : JobPosting := { skills := none, experience := none }

/-- The scorer's output on `jobNone` / `profNoExp` (all sub-scores zero). -/
def resAllZero : MatchResult :=
  { overallScore := 0
    skillsMatch :=
      { score := 0, matchedSkills := [], missingSkills := [],
        details := "Basic skills matching performed" }
    experienceMatch :=
      { score := 0, requiredYears := 0, candidateYears := 0,
        details := "Basic experience matching performed" }
    educationMatch :=
      { score := 0, details := "Basic education matching performed" }
    recommendedActions := ["Complete your profile", "Add more relevant skills"]
    matchSummary := "Overall match score: 0%. This is a basic calculation." }

/-- The scorer's output on `jobJava` / `profJava`. -/
def resJava : MatchResult :=
  { overallScore := 50
    skillsMatch :=
      { score := 100, matchedSkills := [], missingSkills := [],
        details := "Basic skills matching performed" }
    experienceMatch :=
      { score := 0, requiredYears := 0, candidateYears := 0,
        details := "Basic experience matching performed" }
    educationMatch :=
      { score := 0, details := "Basic education matching performed" }
    recommendedActions := ["Complete your profile", "Add more relevant skills"]
    matchSummary := "Overall match score: 50%. This is a basic calculation." }

/-- The scorer's output on `jobZeroReq` / `profExpNil`. -/
def resZeroReq : MatchResult :=
  { overallScore := 30
    skillsMatch :=
      { score := 0, matchedSkills := [], missingSkills := [],
        details := "Basic skills matching performed" }
    experienceMatch :=
      { score := 100, requiredYears := 0, candidateYears := 0,
        details := "Basic experience matching performed" }
    educationMatch :=
      { score := 0, details := "Basic education matching performed" }
    recommendedActions := ["Complete your profile", "Add more relevant skills"]
    matchSummary := "Overall match score: 30%. This is a basic calculation." }

/-- The character list of `janeText`. -/
def janeChars : List Char := ['J', 'a', 'n', 'e', ' ', 'D', 'o', 'e', '\n', 'j', 'a', 'n', 'e', '.', 'd', 'o', 'e', '@', 'e', 'x', 'a', 'm', 'p', 'l', 'e', '.', 'c', 'o', 'm', '\n', '(', '5', '5', '5', ')', ' ', '1', '2', '3', '-', '4', '5', '6', '7']

/-- The raw phone-regex match inside `janeText` (leading newline included:
the whitespace class of the regex matches it). -/
def phoneRaw : List Char :=
  ['\n', '(', '5', '5', '5', ')', ' ', '1', '2', '3', '-', '4', '5', '6', '7']

/-- `phoneRaw` without its leading newline (the trimmed phone string). -/
def phoneBlock : List Char :=
  ['(', '5', '5', '5', ')', ' ', '1', '2', '3', '-', '4', '5', '6', '7']

/-! ### Helper lemmas -/

theorem pctRound_eq (m n : Nat) (hn : 0 < n) :
    pctRound m n = jsRound ((m : ℚ) / (n : ℚ) * 100) := by
  rw [pctRound, jsRound]
  have h1 : (m : ℚ) / (n : ℚ) * 100 + 1/2
      = ((200 * m + n : ℕ) : ℚ) / ((2 * n : ℕ) : ℚ) := by
    have hn0 : (n : ℚ) ≠ 0 := by positivity
    field_simp
    ring
  rw [h1, Rat.floor_natCast_div_natCast]
  norm_cast

theorem overallRound_eq (s e d : ℤ) :
    overallRound s e d
      = jsRound ((s : ℚ) * 0.5 + (e : ℚ) * 0.3 + (d : ℚ) * 0.2) := by
  rw [overallRound, jsRound]
  have h1 : (s : ℚ) * 0.5 + (e : ℚ) * 0.3 + (d : ℚ) * 0.2 + 1/2
      = ((5 * s + 3 * e + 2 * d + 5 : ℤ) : ℚ) / ((10 : ℕ) : ℚ) := by
    push_cast
    norm_num
    ring
  rw [h1, Rat.floor_intCast_div_natCast]
  norm_num

theorem jsRound_nonneg (q : ℚ) (h : 0 ≤ q) : 0 ≤ jsRound q := by
  rw [jsRound]
  exact Int.le_floor.mpr (by push_cast; linarith)

theorem jsRound_le_100 (q : ℚ) (h : q ≤ 100) : jsRound q ≤ 100 := by
  rw [jsRound]
  have h2 : ⌊q + 1/2⌋ < (101 : ℤ) := Int.floor_lt.mpr (by push_cast; linarith)
  omega

theorem pctRound_nonneg (m n : Nat) : 0 ≤ pctRound m n := by
  rw [pctRound]
  exact Int.natCast_nonneg _

theorem pctRound_le_100 (m n : Nat) (hm : m ≤ n) (hn : 0 < n) :
    pctRound m n ≤ 100 := by
  rw [pctRound]
  have h : (200 * m + n) / (2 * n) < 101 :=
    (Nat.div_lt_iff_lt_mul (by omega)).mpr (by omega)
  exact_mod_cast Nat.lt_succ_iff.mp h

theorem foldl_push_filter_map {α β : Type} (p : α → Bool) (f : α → β)
    (l : List α) : ∀ acc : List β,
    l.foldl (fun a k => if p k then a ++ [f k] else a) acc
      = acc ++ (l.filter p).map f := by
  induction l with
  | nil => intro acc; simp
  | cons k t ih =>
    intro acc
    by_cases hk : p k <;> simp [hk, ih, List.filter_cons]

theorem leadsL_trans (a : List Char) : ∀ b c : List Char,
    leadsL a b = true → leadsL b c = true → leadsL a c = true := by
  induction a with
  | nil => intro b c _ _; rfl
  | cons x as ih =>
    intro b c hab hbc
    cases b with
    | nil => simp [leadsL] at hab
    | cons y bs =>
      cases c with
      | nil => simp [leadsL] at hbc
      | cons z cs =>
        simp [leadsL] at hab hbc ⊢
        exact ⟨hab.1.trans hbc.1, ih bs cs hab.2 hbc.2⟩

theorem jsIncludes_mono (n1 n2 : List Char) (h12 : leadsL n1 n2 = true) :
    ∀ hay : List Char, jsIncludes n2 hay = true → jsIncludes n1 hay = true := by
  intro hay
  induction hay with
  | nil =>
    intro h
    cases n2 with
    | nil =>
      cases n1 with
      | nil => rfl
      | cons x as => simp [leadsL] at h12
    | cons y bs => simp [jsIncludes, leadsL] at h
  | cons c t ih =>
    simp only [jsIncludes, Bool.or_eq_true]
    rintro (h | h)
    · exact Or.inl (leadsL_trans n1 n2 (c :: t) h12 h)
    · exact Or.inr (ih h)

/-- Unfolding of a successful run of the fallback scorer. -/
theorem fallbackATSScoring_ok (job : JobPosting) (profile : ScoreProfile)
    (sk : ℤ) (h : skillsScoreE job profile = .ok sk) :
    fallbackATSScoring job profile = .ok
      { overallScore := overallRound sk (experienceScoreOf job profile)
          (educationScoreOf profile)
        skillsMatch :=
          { score := sk, matchedSkills := [], missingSkills := [],
            details := "Basic skills matching performed" }
        experienceMatch :=
          { score := experienceScoreOf job profile
            requiredYears := (job.experience.bind JobExperience.min).getD 0
            candidateYears := (profile.experience.map List.length).getD 0
            details := "Basic experience matching performed" }
        educationMatch :=
          { score := educationScoreOf profile
            details := "Basic education matching performed" }
        recommendedActions := ["Complete your profile", "Add more relevant skills"]
        matchSummary := "Overall match score: "
          ++ toString (overallRound sk (experienceScoreOf job profile)
              (educationScoreOf profile))
          ++ "%. This is a basic calculation." } := by
  rw [fallbackATSScoring, h]

/-! ### Claim theorems -/

/-- Claim C1 — the failure paths of both operations degrade to the fallback,
but the no-raise guarantee is broken by the code: on a job posting whose
skill entry has the empty string as name, `fallbackATSScoring` itself throws
(the skill-name coercion `s.name?.toLowerCase() || s.toLowerCase()` calls
`toLowerCase` on the record), so both the in-try and the in-catch fallback
calls of `calculateATSScore` throw and the TypeError reaches the caller. -/
theorem calculateATSScore_raises_on_empty_skill_name :
    (∀ (parse : String → Option CandidateProfile) (text : String),
      parseResumeWithGemini .unavailable parse text = fallbackResumeParser text) ∧
    (∀ (parse : String → Option CandidateProfile) (text : String),
      parseResumeWithGemini .failure parse text = fallbackResumeParser text) ∧
    fallbackATSScoring jobEmptyName profPlain = .error () ∧
    calculateATSScore .unavailable (fun _ => none) jobEmptyName profPlain
      = .error () :=
  ⟨fun _ _ => rfl, fun _ _ => rfl, by decide, by decide⟩

/-- Claim C2 — on every successful run of the fallback scorer, the overall
score is exactly `Math.round` of `0.5*skills + 0.3*experience +
0.2*education` over the returned sub-scores. -/
theorem fallback_overall_is_weighted_round (job : JobPosting)
    (profile : ScoreProfile) (r : MatchResult)
    (h : fallbackATSScoring job profile = .ok r) :
    r.overallScore = jsRound ((r.skillsMatch.score : ℚ) * 0.5
      + (r.experienceMatch.score : ℚ) * 0.3
      + (r.educationMatch.score : ℚ) * 0.2) := by
  cases hsk : skillsScoreE job profile with
  | error e => rw [fallbackATSScoring, hsk] at h; cases h
  | ok sk =>
    rw [fallbackATSScoring_ok job profile sk hsk] at h
    injection h with h
    subst h
    exact overallRound_eq sk (experienceScoreOf job profile)
      (educationScoreOf profile)

/-- Witness for C2 at a concrete input. -/
theorem fallback_overall_is_weighted_round_witness :
    fallbackATSScoring jobNone profNoExp = Except.ok resAllZero ∧
    resAllZero.overallScore = jsRound ((resAllZero.skillsMatch.score : ℚ) * 0.5
      + (resAllZero.experienceMatch.score : ℚ) * 0.3
      + (resAllZero.educationMatch.score : ℚ) * 0.2) :=
  ⟨by decide, fallback_overall_is_weighted_round jobNone profNoExp resAllZero (by decide)⟩

theorem skillsScoreE_bounds (job : JobPosting) (profile : ScoreProfile)
    (sk : ℤ) (h : skillsScoreE job profile = .ok sk) : 0 ≤ sk ∧ sk ≤ 100 := by
  rw [skillsScoreE] at h
  cases hjs : job.skills with
  | none => rw [hjs] at h; simp at h; simp [← h]
  | some jl =>
    cases hps : profile.skills with
    | none => rw [hjs, hps] at h; simp at h; simp [← h]
    | some pl =>
      rw [hjs, hps] at h
      dsimp only at h
      cases hm1 : jl.mapM skillLowerE with
      | error e => rw [hm1] at h; cases h
      | ok js =>
        rw [hm1] at h
        cases hm2 : pl.mapM skillLowerE with
        | error e => rw [hm2] at h; cases h
        | ok cs =>
          rw [hm2] at h
          simp only [Except.ok.injEq] at h
          subst h
          by_cases hl : 0 < js.length
          · simp only [hl, if_true]
            exact ⟨pctRound_nonneg _ _,
              pctRound_le_100 _ _ (List.length_filter_le _ _) hl⟩
          · simp [hl]

theorem experienceScoreOf_bounds (job : JobPosting) (profile : ScoreProfile) :
    0 ≤ experienceScoreOf job profile ∧ experienceScoreOf job profile ≤ 100 := by
  rw [experienceScoreOf]
  cases hje : job.experience with
  | none => simp
  | some jx =>
    cases hpe : profile.experience with
    | none => simp
    | some el =>
      simp only
      by_cases h1 : jx.min.getD 0 ≤ el.length
      · simp [h1]
      · by_cases h2 : 0 < el.length
        · simp only [h1, if_false, h2, if_true]
          exact ⟨pctRound_nonneg _ _,
            pctRound_le_100 _ _ (by omega) (by omega)⟩
        · simp [h1, h2]

theorem educationScoreOf_bounds (profile : ScoreProfile) :
    0 ≤ educationScoreOf profile ∧ educationScoreOf profile ≤ 100 := by
  rw [educationScoreOf]
  cases profile.education with
  | none => simp
  | some el =>
    by_cases h : 0 < el.length
    · simp [h]
    · simp [h]

/-- Claim C9 — every sub-score of a successful fallback-scorer run lies in
0..100, the overall score is an integer in 0..100, and the fallback leaves
`matchedSkills` / `missingSkills` empty. -/
theorem fallback_scores_in_range (job : JobPosting) (profile : ScoreProfile)
    (r : MatchResult) (h : fallbackATSScoring job profile = .ok r) :
    (0 ≤ r.skillsMatch.score ∧ r.skillsMatch.score ≤ 100) ∧
    (0 ≤ r.experienceMatch.score ∧ r.experienceMatch.score ≤ 100) ∧
    (0 ≤ r.educationMatch.score ∧ r.educationMatch.score ≤ 100) ∧
    (0 ≤ r.overallScore ∧ r.overallScore ≤ 100) ∧
    r.skillsMatch.matchedSkills = [] ∧ r.skillsMatch.missingSkills = [] := by
  cases hsk : skillsScoreE job profile with
  | error e => rw [fallbackATSScoring, hsk] at h; cases h
  | ok sk =>
    rw [fallbackATSScoring_ok job profile sk hsk] at h
    injection h with h
    subst h
    obtain ⟨hs0, hs1⟩ := skillsScoreE_bounds job profile sk hsk
    obtain ⟨he0, he1⟩ := experienceScoreOf_bounds job profile
    obtain ⟨hd0, hd1⟩ := educationScoreOf_bounds profile
    refine ⟨⟨hs0, hs1⟩, ⟨he0, he1⟩, ⟨hd0, hd1⟩, ?_, rfl, rfl⟩
    have hsq0 : (0 : ℚ) ≤ (sk : ℚ) := by exact_mod_cast hs0
    have hsq1 : (sk : ℚ) ≤ 100 := by exact_mod_cast hs1
    have heq0 : (0 : ℚ) ≤ (experienceScoreOf job profile : ℚ) := by exact_mod_cast he0
    have heq1 : (experienceScoreOf job profile : ℚ) ≤ 100 := by exact_mod_cast he1
    have hdq0 : (0 : ℚ) ≤ (educationScoreOf profile : ℚ) := by exact_mod_cast hd0
    have hdq1 : (educationScoreOf profile : ℚ) ≤ 100 := by exact_mod_cast hd1
    rw [overallRound_eq]
    constructor
    · exact jsRound_nonneg _ (by norm_num; linarith)
    · exact jsRound_le_100 _ (by norm_num; linarith)

/-- Witness for C9 at a concrete input. -/
theorem fallback_scores_in_range_witness :
    fallbackATSScoring jobJava profJava = Except.ok resJava ∧
    ((0 ≤ resJava.skillsMatch.score ∧ resJava.skillsMatch.score ≤ 100) ∧
     (0 ≤ resJava.experienceMatch.score ∧ resJava.experienceMatch.score ≤ 100) ∧
     (0 ≤ resJava.educationMatch.score ∧ resJava.educationMatch.score ≤ 100) ∧
     (0 ≤ resJava.overallScore ∧ resJava.overallScore ≤ 100) ∧
     resJava.skillsMatch.matchedSkills = [] ∧
     resJava.skillsMatch.missingSkills = []) :=
  ⟨by decide, fallback_scores_in_range jobJava profJava resJava (by decide)⟩

/-- The experience sub-score of a successful fallback-scorer run is
`experienceScoreOf`. -/
theorem expScore_of_ok (job : JobPosting) (profile : ScoreProfile)
    (r : MatchResult) (h : fallbackATSScoring job profile = .ok r) :
    r.experienceMatch.score = experienceScoreOf job profile := by
  cases hsk : skillsScoreE job profile with
  | error e => rw [fallbackATSScoring, hsk] at h; cases h
  | ok sk =>
    rw [fallbackATSScoring_ok job profile sk hsk] at h
    injection h with h
    subst h
    rfl

/-- Unfolding of the experience block when both fields are present. -/
theorem experienceScoreOf_eq (job : JobPosting) (profile : ScoreProfile)
    (jx : JobExperience) (el : List ExperienceEntry)
    (hje : job.experience = some jx) (hpe : profile.experience = some el) :
    experienceScoreOf job profile
      = (if jx.min.getD 0 ≤ el.length then 100
         else if 0 < el.length then pctRound el.length (jx.min.getD 0)
         else 0) := by
  rw [experienceScoreOf, hje, hpe]

/-- Counterexample to claim C3 as stated: a job requiring zero years
(`experience.min = 0`) scored against a profile whose `experience` field is
absent yields experience score `0`, not `100`, because the block is guarded
by `jobDescription.experience && candidateProfile.experience`. -/
theorem experience_zero_required_counterexample :
    (fallbackATSScoring jobZeroReq profNoExp).map
        (fun r => r.experienceMatch.score) = Except.ok 0 ∧
    ¬ ((fallbackATSScoring jobZeroReq profNoExp).map
        (fun r => r.experienceMatch.score) = Except.ok 100) := by
  constructor
  · decide
  · decide

/-- Claim C3 (amended) — when both `job.experience` and `profile.experience`
are present and the required minimum (default 0 when `min` is absent) is
zero, the experience score is 100; when either field is absent the block is
skipped and the score is 0; the partial-credit (division) branch executes
only under `expPartialBranch`, which is never satisfied when
`requiredYears = 0` because `candidateYears >= 0` always satisfies the first
condition. -/
theorem experience_zero_required_amended :
    (∀ (job : JobPosting) (profile : ScoreProfile) (r : MatchResult)
       (jx : JobExperience) (el : List ExperienceEntry),
      fallbackATSScoring job profile = .ok r → job.experience = some jx →
      profile.experience = some el → jx.min.getD 0 = 0 →
      r.experienceMatch.score = 100) ∧
    (∀ (job : JobPosting) (profile : ScoreProfile) (r : MatchResult),
      fallbackATSScoring job profile = .ok r →
      (job.experience = none ∨ profile.experience = none) →
      r.experienceMatch.score = 0) ∧
    (∀ (job : JobPosting) (profile : ScoreProfile) (jx : JobExperience)
       (el : List ExperienceEntry),
      job.experience = some jx → profile.experience = some el →
      expPartialBranch (jx.min.getD 0) el.length = true →
      experienceScoreOf job profile = pctRound el.length (jx.min.getD 0)) ∧
    (∀ candidateYears : Nat, expPartialBranch 0 candidateYears = false) := by
  refine ⟨?_, ?_, ?_, ?_⟩
  · intro job profile r jx el h hje hpe hmin
    rw [expScore_of_ok job profile r h,
      experienceScoreOf_eq job profile jx el hje hpe, hmin]
    simp
  · intro job profile r h habs
    rw [expScore_of_ok job profile r h, experienceScoreOf]
    rcases habs with habs | habs
    · rw [habs]
    · rw [habs]; cases job.experience <;> rfl
  · intro job profile jx el hje hpe hbr
    rw [expPartialBranch] at hbr
    simp only [Bool.and_eq_true, Bool.not_eq_true', decide_eq_false_iff_not,
      decide_eq_true_eq] at hbr
    rw [experienceScoreOf_eq job profile jx el hje hpe]
    simp [hbr.1, hbr.2]
  · intro candidateYears
    rw [expPartialBranch]
    simp

/-- Witness for the amended C3 at a concrete input. -/
theorem experience_zero_required_amended_witness :
    (fallbackATSScoring jobZeroReq profExpNil = Except.ok resZeroReq ∧
     jobZeroReq.experience = some { min := some 0, max := none } ∧
     profExpNil.experience = some [] ∧
     ({ min := some 0, max := none } : JobExperience).min.getD 0 = 0) ∧
    resZeroReq.experienceMatch.score = 100 :=
  ⟨⟨by decide, rfl, rfl, rfl⟩,
    experience_zero_required_amended.1 jobZeroReq profExpNil resZeroReq
      { min := some 0, max := none } [] (by decide) rfl rfl rfl⟩

/-- Claim C4 — experience scoring: `candidateYears` is the number of entries
of a present `profile.experience`; the score is 100 at or above the required
minimum, `Math.round(100*candidateYears/requiredYears)` for a positive count
below it, and 0 for an empty list; with `min = 5` this gives 0, 20 and 100
for zero, one and five entries. -/
theorem experience_score_formula :
    (∀ (job : JobPosting) (profile : ScoreProfile) (sk : ℤ)
       (jx : JobExperience) (el : List ExperienceEntry),
      skillsScoreE job profile = .ok sk → job.experience = some jx →
      profile.experience = some el →
      (fallbackATSScoring job profile).map (fun r => r.experienceMatch.score)
        = .ok (if jx.min.getD 0 ≤ el.length then 100
               else if 0 < el.length then
                 jsRound (100 * (el.length : ℚ) / ((jx.min.getD 0 : ℕ) : ℚ))
               else 0)) ∧
    (fallbackATSScoring jobFiveReq profExpNil).map
      (fun r => r.experienceMatch.score) = .ok 0 ∧
    (fallbackATSScoring jobFiveReq profExpOne).map
      (fun r => r.experienceMatch.score) = .ok 20 ∧
    (fallbackATSScoring jobFiveReq profExpFive).map
      (fun r => r.experienceMatch.score) = .ok 100 := by
  refine ⟨?_, by decide, by decide, by decide⟩
  intro job profile sk jx el hsk hje hpe
  rw [fallbackATSScoring_ok job profile sk hsk]
  simp only [Except.map]
  rw [experienceScoreOf_eq job profile jx el hje hpe]
  by_cases h1 : jx.min.getD 0 ≤ el.length
  · simp [h1]
  · by_cases h2 : 0 < el.length
    · simp only [h1, if_false, h2, if_true]
      rw [pctRound_eq el.length (jx.min.getD 0) (by omega)]
      congr 2
      ring
    · simp [h1, h2]

/-- Witness for C4 at a concrete input. -/
theorem experience_score_formula_witness :
    (skillsScoreE jobFiveReq profExpOne = Except.ok 0 ∧
     jobFiveReq.experience = some { min := some 5, max := none } ∧
     profExpOne.experience = some [expEntry1]) ∧
    (fallbackATSScoring jobFiveReq profExpOne).map
        (fun r => r.experienceMatch.score)
      = .ok (if ({ min := some 5, max := none } : JobExperience).min.getD 0
               ≤ [expEntry1].length then 100
             else if 0 < [expEntry1].length then
               jsRound (100 * ([expEntry1].length : ℚ)
                 / ((({ min := some 5, max := none } : JobExperience).min.getD 0 : ℕ) : ℚ))
             else 0) :=
  ⟨⟨rfl, rfl, rfl⟩,
    experience_score_formula.1 jobFiveReq profExpOne 0
      { min := some 5, max := none } [expEntry1] rfl rfl rfl⟩

/-- Claim C5 — skills scoring: with both lists present and every name
lowercased, a job skill is matched when some candidate skill name contains
it or is contained in it (case-insensitive bidirectional substring);
the score is `Math.round(100*matched/total)`, and 0 for zero job skills;
`Java` against `java`/`SQL` scores 100. -/
theorem skills_score_formula :
    (∀ (job : JobPosting) (profile : ScoreProfile) (jl pl : List SkillVal)
       (js cs : List String),
      job.skills = some jl → profile.skills = some pl →
      jl.mapM skillLowerE = Except.ok js → pl.mapM skillLowerE = Except.ok cs →
      (fallbackATSScoring job profile).map (fun r => r.skillsMatch.score)
        = .ok (if 0 < js.length then
                 jsRound (100 * ((js.filter (fun s => cs.any
                     (fun c => strIncludes c s || strIncludes s c))).length : ℚ)
                   / (js.length : ℚ))
               else 0)) ∧
    (fallbackATSScoring jobJava profJava).map
      (fun r => r.skillsMatch.score) = .ok 100 := by
  refine ⟨?_, by decide⟩
  intro job profile jl pl js cs hjs hps hm1 hm2
  have hsk : skillsScoreE job profile
      = .ok (if 0 < js.length then
               pctRound (js.filter (fun s => cs.any
                 (fun c => strIncludes c s || strIncludes s c))).length js.length
             else 0) := by
    rw [skillsScoreE, hjs, hps]
    dsimp only
    rw [hm1, hm2]
  rw [fallbackATSScoring_ok job profile _ hsk]
  simp only [Except.map]
  by_cases hl : 0 < js.length
  · simp only [hl, if_true]
    rw [pctRound_eq _ js.length hl]
    congr 2
    ring
  · simp [hl]

/-- Witness for C5 at a concrete input. -/
theorem skills_score_formula_witness :
    (jobJava.skills = some [.obj (some "Java")] ∧
     profJava.skills = some [.obj (some "java"), .obj (some "SQL")] ∧
     ([SkillVal.obj (some "Java")].mapM skillLowerE = Except.ok ["java"]) ∧
     ([SkillVal.obj (some "java"), SkillVal.obj (some "SQL")].mapM skillLowerE
        = Except.ok ["java", "sql"])) ∧
    (fallbackATSScoring jobJava profJava).map (fun r => r.skillsMatch.score)
      = .ok (if 0 < (["java"] : List String).length then
               jsRound (100 * ((["java"].filter (fun s =>
                   (["java", "sql"] : List String).any
                     (fun c => strIncludes c s || strIncludes s c))).length : ℚ)
                 / ((["java"] : List String).length : ℚ))
             else 0) :=
  ⟨⟨rfl, rfl, by decide, by decide⟩,
    skills_score_formula.1 jobJava profJava [.obj (some "Java")]
      [.obj (some "java"), .obj (some "SQL")] ["java"] ["java", "sql"]
      rfl rfl (by decide) (by decide)⟩

/-- Claim C6 — the fallback extractor is total (a Lean function) and always
returns every top-level Candidate Profile field; summary, experience,
projects, certifications, languages and the never-extracted personal fields
are always their empty defaults, and on the empty string every field is
empty. -/
theorem fallback_parser_total_defaults :
    (∀ s : String,
      (fallbackResumeParser s).summary = "" ∧
      (fallbackResumeParser s).experience = [] ∧
      (fallbackResumeParser s).projects = [] ∧
      (fallbackResumeParser s).certifications = [] ∧
      (fallbackResumeParser s).languages = [] ∧
      (fallbackResumeParser s).personalInfo.location = none ∧
      (fallbackResumeParser s).personalInfo.linkedin = none ∧
      (fallbackResumeParser s).personalInfo.github = none ∧
      (fallbackResumeParser s).personalInfo.website = none) ∧
    fallbackResumeParser "" =
      { personalInfo :=
          { name := none, email := none, phone := none, location := none,
            linkedin := none, github := none, website := none },
        summary := "", experience := [], education := [], skills := [],
        projects := [], certifications := [], languages := [] } :=
  ⟨fun _ => ⟨rfl, rfl, rfl, rfl, rfl, rfl, rfl, rfl, rfl⟩, by decide⟩

/-- The two-level education `forEach`-push equals one entry per
(line, contained keyword) pair, in source order. -/
theorem eduFold_eq (lines : List (List Char)) : ∀ acc : List EducationEntry,
    lines.foldl
      (fun acc line => educationKeywords.foldl
        (fun acc2 k => if jsIncludes k.data line then
            acc2 ++ [mkEduEntry (String.mk line)]
          else acc2) acc)
      acc
    = acc ++ lines.flatMap (fun line =>
        (educationKeywords.filter (fun k => jsIncludes k.data line)).map
          (fun _ => mkEduEntry (String.mk line))) := by
  induction lines with
  | nil => intro acc; simp
  | cons line t ih =>
    intro acc
    rw [List.foldl_cons,
      foldl_push_filter_map (fun k => jsIncludes k.data line)
        (fun _ => mkEduEntry (String.mk line)) educationKeywords acc,
      ih]
    simp [List.append_assoc]

/-- Claim C8 — fallback education extraction: one entry per (non-blank
trimmed line, contained degree keyword) pair, the whole trimmed line as the
`degree` and every other field empty; a line with two keywords yields two
entries, and the Bachelor-of-Science line yields exactly one. -/
theorem education_extraction_characterization :
    (∀ text : String,
      (fallbackResumeParser text).education
        = (((splitNL text.data).map jsTrim).filter
              (fun l => decide (0 < l.length))).flatMap
            (fun line => (educationKeywords.filter
                (fun k => jsIncludes k.data line)).map
              (fun _ => mkEduEntry (String.mk line)))) ∧
    (fallbackResumeParser "Master Certificate").education
      = [mkEduEntry "Master Certificate", mkEduEntry "Master Certificate"] ∧
    (fallbackResumeParser "Bachelor of Science in Computer Science").education
      = [mkEduEntry "Bachelor of Science in Computer Science"] := by
  refine ⟨?_, by decide, by decide⟩
  intro text
  show (((splitNL text.data).map jsTrim).filter
      (fun l => decide (0 < l.length))).foldl
      (fun acc line => educationKeywords.foldl
        (fun acc2 k => if jsIncludes k.data line then
            acc2 ++ [mkEduEntry (String.mk line)]
          else acc2) acc)
      [] = _
  rw [eduFold_eq]
  simp

/-- The skills keyword scan equals a filter-and-map over the fixed keyword
list. -/
theorem skills_characterization (text : String) :
    (fallbackResumeParser text).skills
      = (skillKeywords.filter
            (fun k => jsIncludes (lowerL k.data) (lowerL text.data))).map
          (fun k => { name := k, category := "Technical",
                      level := "Intermediate" }) := by
  simp only [fallbackResumeParser]
  rw [foldl_push_filter_map
    (fun k => jsIncludes (lowerL k.data) (lowerL text.data))
    (fun k => ({ name := k, category := "Technical",
                 level := "Intermediate" } : SkillEntry))
    skillKeywords []]
  simp

/-- Claim C10 — because keyword detection is a lowercased substring test,
any text containing `JavaScript` in any letter case produces both the
`JavaScript` and the `Java` skill entries (category `Technical`, level
`Intermediate`), even with no standalone `Java` in the text. -/
theorem javascript_skill_implies_java (text : String)
    (h : jsIncludes ("javascript".data) (lowerL text.data) = true) :
    ({ name := "JavaScript", category := "Technical",
       level := "Intermediate" } : SkillEntry)
        ∈ (fallbackResumeParser text).skills ∧
    ({ name := "Java", category := "Technical",
       level := "Intermediate" } : SkillEntry)
        ∈ (fallbackResumeParser text).skills := by
  rw [skills_characterization]
  have hjava : jsIncludes ("java".data) (lowerL text.data) = true :=
    jsIncludes_mono _ _ (by decide) _ h
  have e1 : lowerL ("JavaScript".data) = "javascript".data := by decide
  have e2 : lowerL ("Java".data) = "java".data := by decide
  constructor
  · exact List.mem_map.mpr ⟨"JavaScript",
      List.mem_filter.mpr ⟨by decide, by rw [e1]; exact h⟩, rfl⟩
  · exact List.mem_map.mpr ⟨"Java",
      List.mem_filter.mpr ⟨by decide, by rw [e2]; exact hjava⟩, rfl⟩

/-- Witness for C10: a text containing `JAVASCRIPT` but no standalone
`Java`. -/
theorem javascript_skill_implies_java_witness :
    jsIncludes ("javascript".data)
        (lowerL ("Shipped tooling in JAVASCRIPT").data) = true ∧
    (({ name := "JavaScript", category := "Technical",
        level := "Intermediate" } : SkillEntry)
          ∈ (fallbackResumeParser "Shipped tooling in JAVASCRIPT").skills ∧
     ({ name := "Java", category := "Technical",
        level := "Intermediate" } : SkillEntry)
          ∈ (fallbackResumeParser "Shipped tooling in JAVASCRIPT").skills) :=
  ⟨by decide, javascript_skill_implies_java _ (by decide)⟩

/-- Counterexample to claim C7 as stated: in a text satisfying the claim's
hypothesis (first line-start two-capitalized-word match is `Jane Doe`,
followed by the email and the phone) but containing an earlier email-shaped
substring `a@b.co`, the extracted email is the leftmost regex match
`a@b.co`, not `jane.doe@example.com`. -/
theorem jane_doe_extraction_counterexample :
    (fallbackResumeParser janeTextPoisoned).personalInfo.name
      = some "Jane Doe" ∧
    (fallbackResumeParser janeTextPoisoned).personalInfo.email
      = some "a@b.co" ∧
    (fallbackResumeParser janeTextPoisoned).personalInfo.email
      ≠ some "jane.doe@example.com" := by
  refine ⟨by decide, by decide, by decide⟩

theorem leadsL_append (n r : List Char) : leadsL n (n ++ r) = true := by
  induction n with
  | nil => rfl
  | cons a t ih => simp [leadsL, ih]

theorem jsIncludes_of_leadsL (n hay : List Char) (h : leadsL n hay = true) :
    jsIncludes n hay = true := by
  cases hay with
  | nil => simpa [jsIncludes] using h
  | cons c t => simp [jsIncludes, h]

/-- The name regex matches `Jane Doe` at position 0 of any text beginning
with `janeChars`, whatever follows. -/
theorem firstName_jane (w : List Char) :
    firstName (janeChars ++ w) = some ("Jane Doe".data) := by
  simp +decide [janeChars, firstName, nameScan, nameAt, List.takeWhile_cons]

/-- The leftmost email-regex match of any text beginning with `janeChars` is
`jane.doe@example.com` (every earlier start position fails). -/
theorem firstEmail_jane (w : List Char) :
    firstEmail (janeChars ++ w) = some ("jane.doe@example.com".data) := by
  simp +decide [janeChars, firstEmail, emailAt, domSearch, List.takeWhile_cons]

/-- The leftmost phone-regex match of any text beginning with `janeChars`
starts at the newline before `(555)` and extends through any phone-class
characters of the suffix. -/
theorem firstPhone_jane (w : List Char) :
    firstPhone (janeChars ++ w) = some (phoneRaw ++ w.takeWhile isPhoneChar) := by
  simp +decide [janeChars, phoneRaw, firstPhone, phoneAt, phoneCore,
    List.takeWhile_cons]

/-- The digits of the trimmed phone match always begin with `5551234567`,
whatever phone-class characters the suffix contributed. -/
theorem digits_phone_block (z : List Char) :
    jsIncludes ("5551234567".data) (digitsOf (jsTrim (phoneRaw ++ z))) = true := by
  have h1 : (phoneRaw ++ z).dropWhile isJsWs = phoneBlock ++ z := by
    simp +decide [phoneRaw, phoneBlock, List.dropWhile_cons]
  rw [jsTrim, h1, List.reverse_append, List.dropWhile_append]
  by_cases h : (List.dropWhile isJsWs z.reverse).isEmpty
  · rw [if_pos h]
    have h2 : List.dropWhile isJsWs phoneBlock.reverse = phoneBlock.reverse := by
      decide
    rw [h2, List.reverse_reverse]
    decide
  · rw [if_neg h, List.reverse_append, List.reverse_reverse]
    rw [digitsOf, List.filter_append]
    have h3 : List.filter Char.isDigit phoneBlock = "5551234567".data := by decide
    rw [h3]
    exact jsIncludes_of_leadsL _ _ (leadsL_append _ _)

/-- Claim C7 (amended) — for every resume text that begins with the Jane Doe
block (so that no earlier email-shaped or phone-shaped match precedes it;
the counterexample shows an earlier email hijacks the leftmost match), the
extractor returns name `Jane Doe` (the first line-start two-capitalized-word
match), email `jane.doe@example.com`, and a phone string whose digits
contain `5551234567`. -/
theorem jane_doe_extraction_amended (v : String) :
    (fallbackResumeParser (janeText ++ v)).personalInfo.name = some "Jane Doe" ∧
    (fallbackResumeParser (janeText ++ v)).personalInfo.email
      = some "jane.doe@example.com" ∧
    ∃ p : String,
      (fallbackResumeParser (janeText ++ v)).personalInfo.phone = some p ∧
      jsIncludes ("5551234567".data) (digitsOf p.data) = true := by
  have hj : janeText.data = janeChars := by decide
  have hdata : (janeText ++ v).data = janeChars ++ v.data := by
    rw [String.data_append, hj]
  refine ⟨?_, ?_, ?_⟩
  · simp only [fallbackResumeParser]
    rw [hdata, firstName_jane]
    rfl
  · simp only [fallbackResumeParser]
    rw [hdata, firstEmail_jane]
    rfl
  · refine ⟨String.mk (jsTrim (phoneRaw ++ v.data.takeWhile isPhoneChar)), ?_, ?_⟩
    · simp only [fallbackResumeParser]
      rw [hdata, firstPhone_jane]
      rfl
    · exact digits_phone_block _
